import Mathlib

/-!
# Verification of `proxy/http/server/reverse.py` (`ReverseProxy`)

A shallow embedding of the `ReverseProxy` handler: its per-connection state
(`choice`, `upstream`), its plugin interface, and its four entry points
`handle_request`, `handle_upstream_data`, `on_client_connection_close` and
`on_access_log`.  External collaborators (the `Url` codec, `random.choice`,
the transport's `connect`, the message serializers, the regex engine and the
log sink's format template) are modelled as an explicit environment of
functions; the regex engine in particular is abstracted as a matcher
`String → Bool` obtained from `re.compile(...).match`.

Bytes are natural numbers, byte strings are lists of naturals, and decoded
text (`text_`) is `String`.
-/

set_option autoImplicit false

namespace ReverseProxyModel

/-- Byte strings (`bytes` / `memoryview` payloads). -/
abbrev ByteString := List Nat

/-- `proxy.http.Url` as used by `reverse.py`: scheme, hostname, optional
port, and the path remainder forwarded upstream. -/
structure Url where
  scheme : String
  hostname : Option String
  port : Option Nat
  remainder : String
deriving DecidableEq

/-- The inbound HTTP request object, as far as `reverse.py` touches it:
a mutable `path` plus the untouched remainder of the message. -/
structure Request where
  path : String
  rest : String
deriving DecidableEq

/-- The response parser object `HttpParser(httpParserTypes.RESPONSE_PARSER)`,
modelled opaquely by the bytes that have been fed to it: `parse` accumulates
fed bytes, and completion / status code are functions of the fed bytes
supplied by the environment. -/
structure HttpParser where
  fed : ByteString
deriving DecidableEq

/-- A freshly constructed response parser (no bytes fed yet). -/
def HttpParser.mk0 : HttpParser := ⟨[]⟩

/-- `HttpParser.parse`: feed a chunk of bytes into the parser. -/
def HttpParser.parse (p : HttpParser) (raw : ByteString) : HttpParser :=
  ⟨p.fed ++ raw⟩

/-- The exceptions `handle_request` can raise. -/
inductive PyError where
  | httpProtocolException (msg : String)
  | valueError (msg : String)
  | assertionError
deriving DecidableEq

/-- Observable side effects of a run, other than state mutation: which
plugins' `routes()` were consulted, upstream initialization / connect / TLS
wrap, and bytes queued or log records emitted. -/
inductive Event where
  | routesConsulted
  | upstreamInitialized (host : String) (port : Nat)
  | connectAttempted (host : String) (port : Nat)
  | tlsWrapped (host : String)
  | queuedUpstream (bs : ByteString)
  | loggedCompletion (code : Nat)
  | emittedLog (record : String)
deriving DecidableEq

/-- A route entry returned by a plugin's `routes()`: either a
`(pattern, candidate-urls)` tuple, a bare pattern string, or anything else
(which `handle_request` rejects with `ValueError('Invalid route')`).
Patterns are compiled matchers `String → Bool` (the regex engine is
external). -/
inductive RouteEntry where
  | tupleEntry (pat : String → Bool) (candidates : List String)
  | strEntry (pat : String → Bool)
  | invalid

/-- Access-log context: an insertion-ordered dict from string keys to
string-or-`None` values. -/
abbrev Ctx := List (String × Option String)

/-- `dict.update` restricted to a single key: replace the value at the first
occurrence of the key, or append the pair if the key is absent. -/
def ctxUpdate : Ctx → String → Option String → Ctx
  | [], k, v => [(k, v)]
  | kv :: rest, k, v =>
    if kv.1 = k then (k, v) :: rest else kv :: ctxUpdate rest k v

/-- Dictionary lookup on a `Ctx`. -/
def ctxLookup : Ctx → String → Option (Option String)
  | [], _ => none
  | kv :: rest, k => if kv.1 = k then some kv.2 else ctxLookup rest k

/-- A `ReverseProxyBasePlugin` instance, modelled by its capability set
(the plugin class itself lives outside this file's source). -/
structure ReverseProxyBasePlugin where
  regexes : List (String → Bool)
  routes : List RouteEntry
  before_routing : Request → Option Request
  handle_route : Request → (String → Bool) → Url
  after_handling_upstream_data : HttpParser → Option HttpParser
  on_access_log : Ctx → Option Ctx

/-- The external collaborators `reverse.py` calls into. -/
structure Env where
  /-- `Url.from_bytes` (the URL codec). -/
  from_bytes : String → Url
  /-- `random.choice` on a candidate list (injectable randomness source). -/
  random_choice : List String → String
  /-- `self.upstream.connect()`: `true` on success, `false` means
  `ConnectionRefusedError`. -/
  connect : String → Nat → Bool
  /-- `request.build()` (request serializer). -/
  build : Request → ByteString
  /-- `response.build_response()` (response serializer), a function of the
  parser state. -/
  build_response : HttpParser → ByteString
  /-- `response.is_complete`, a function of the bytes fed to the parser. -/
  is_complete : ByteString → Bool
  /-- `response.code` once observed, a function of the bytes fed. -/
  code : ByteString → Nat
  /-- `str(url)` (Url's string form). -/
  url_str : Url → String
  /-- `DEFAULT_REVERSE_PROXY_ACCESS_LOG_FORMAT.format_map` (the sink's
  format template applied to a context). -/
  format_access_log : Ctx → String

/-- `DEFAULT_HTTP_PORT` from `proxy.common.constants`. -/
def DEFAULT_HTTP_PORT : Nat := 80

/-- `DEFAULT_HTTPS_PORT` from `proxy.common.constants`. -/
def DEFAULT_HTTPS_PORT : Nat := 443

/-- `HTTPS_PROTO` from `proxy.common.constants`. -/
def HTTPS_PROTO : String := "https"

/-- The upstream connection object created by `initialize_upstream`. -/
structure UpstreamConn where
  host : String
  port : Nat
  closed : Bool
deriving DecidableEq

/-- The per-connection mutable state of `ReverseProxy`: the chosen target
`self.choice` and the upstream connection reference `self.upstream`. -/
structure ReverseProxyState where
  choice : Option Url
  upstream : Option UpstreamConn
deriving DecidableEq

/-- Result of running an entry point: the state after the run, the events it
emitted, and the exception it raised (if any).  Mutations made before an
exception persist, as in Python. -/
structure RunOut where
  state : ReverseProxyState
  events : List Event
  err : Option PyError
deriving DecidableEq

/-- The `before_routing` loop of `handle_request`: thread the request
through each plugin's hook in list order; a `None` return raises
`HttpProtocolException('before_routing closed connection')`. -/
def beforeRoutingChain : List ReverseProxyBasePlugin → Request → Except PyError Request
  | [], request => .ok request
  | p :: rest, request =>
    match p.before_routing request with
    | none => .error (.httpProtocolException "before_routing closed connection")
    | some r => beforeRoutingChain rest r

/-- The inner loop of `handle_request`'s route matching: scan one plugin's
`routes()` in order against the request path; on the first match record the
resolved target and `break`; a non-tuple non-str entry raises
`ValueError('Invalid route')`.  Returns the error raised (if any) and the
value of `self.choice` afterwards. -/
def scanPluginRoutes (env : Env) (req : Request) (p : ReverseProxyBasePlugin)
    (choice : Option Url) : List RouteEntry → Option PyError × Option Url
  | [] => (none, choice)
  | .tupleEntry pat candidates :: rest =>
    if pat req.path then (none, some (env.from_bytes (env.random_choice candidates)))
    else scanPluginRoutes env req p choice rest
  | .strEntry pat :: rest =>
    if pat req.path then (none, some (p.handle_route req pat))
    else scanPluginRoutes env req p choice rest
  | .invalid :: _ => (some (.valueError "Invalid route"), choice)

/-- What one plugin alone contributes to route matching, starting from no
prior choice: `(none, some u)` is a match resolving to `u`, `(none, none)`
no matching route, `(some e, _)` an invalid entry reached. -/
def pluginScanResult (env : Env) (req : Request) (p : ReverseProxyBasePlugin) :
    Option PyError × Option Url :=
  scanPluginRoutes env req p none p.routes

/-- The outer loop of `handle_request`'s route matching: visit every plugin
in list order (the `break` above only leaves the inner loop), threading
`self.choice` through; emits one `routesConsulted` event per plugin whose
`routes()` is consulted. -/
def routeScan (env : Env) (req : Request) :
    Option Url → List ReverseProxyBasePlugin → List Event × Option PyError × Option Url
  | choice, [] => ([], none, choice)
  | choice, p :: rest =>
    match scanPluginRoutes env req p choice p.routes with
    | (some e, c) => ([.routesConsulted], some e, c)
    | (none, c) =>
      match routeScan env req c rest with
      | (evs, err, c') => (.routesConsulted :: evs, err, c')

/-- The port computation of `handle_request`, with Python's operator
precedence:
`port = (self.choice.port or DEFAULT_HTTP_PORT) if self.choice.scheme == b'http' else DEFAULT_HTTPS_PORT`,
where `or` treats a `None` or `0` port as absent. -/
def resolvePort (u : Url) : Nat :=
  if u.scheme = "http" then
    match u.port with
    | some p => if p = 0 then DEFAULT_HTTP_PORT else p
    | none => DEFAULT_HTTP_PORT
  else DEFAULT_HTTPS_PORT

/-- Modelled from the spec: the port/scheme resolution as §4.1 step 3 states
it — "if the chosen target has an explicit port, use it; otherwise use the
scheme's default port (plain-HTTP default vs. HTTPS default)". -/
def resolvePortSpec (u : Url) : Nat :=
  match u.port with
  | some p => p
  | none => if u.scheme = "http" then DEFAULT_HTTP_PORT else DEFAULT_HTTPS_PORT

/-- The tail of `handle_request` once the assertion on `self.choice` has
passed: compute the port, `initialize_upstream`, `connect()` (a refusal
raises `HttpProtocolException` carrying host and port), TLS-wrap for the
secure scheme, rewrite the request path to the target's remainder and queue
the serialized request upstream. -/
def connectPhase (env : Env) (req : Request) (evs : List Event)
    (url : Url) (host : String) : ReverseProxyState → RunOut :=
  fun _ =>
    let port := resolvePort url
    let st2 : ReverseProxyState := ⟨some url, some ⟨host, port, false⟩⟩
    let evs2 := evs ++ [.upstreamInitialized host port, .connectAttempted host port]
    if env.connect host port then
      let evs3 := if url.scheme = HTTPS_PROTO then evs2 ++ [.tlsWrapped host] else evs2
      ⟨st2, evs3 ++ [.queuedUpstream (env.build { req with path := url.remainder })], none⟩
    else
      ⟨st2, evs2, some (.httpProtocolException
        ("Connection refused by upstream server " ++ host ++ ":" ++ toString port))⟩

/-- `ReverseProxy.handle_request`: the `before_routing` chain, the route
matching loops, the assertion `assert self.choice and self.choice.hostname`
(Python truthiness: an empty hostname also fails it), then the connect
phase. -/
def handle_request (env : Env) (ps : List ReverseProxyBasePlugin)
    (st : ReverseProxyState) (request : Request) : RunOut :=
  match beforeRoutingChain ps request with
  | .error e => ⟨st, [], some e⟩
  | .ok req =>
    match routeScan env req st.choice ps with
    | (evs, some e, choice) => ⟨⟨choice, st.upstream⟩, evs, some e⟩
    | (evs, none, choice) =>
      match choice with
      | none => ⟨⟨none, st.upstream⟩, evs, some .assertionError⟩
      | some url =>
        match url.hostname with
        | none => ⟨⟨some url, st.upstream⟩, evs, some .assertionError⟩
        | some host =>
          if host = "" then ⟨⟨some url, st.upstream⟩, evs, some .assertionError⟩
          else connectPhase env req evs url host st

/-- The `after_handling_upstream_data` loop of `handle_upstream_data`:
thread the parsed response through each plugin's hook; a `None` return
queues the original raw chunk to the client and stops; otherwise the built
final response is queued.  Returns the bytes queued to the client. -/
def afterChain (env : Env) (raw : ByteString) :
    List ReverseProxyBasePlugin → HttpParser → ByteString
  | [], response => env.build_response response
  | p :: rest, response =>
    match p.after_handling_upstream_data response with
    | none => raw
    | some r => afterChain env raw rest r

/-- Successful threading of a response through the whole hook chain:
`some` of the final response when no hook returns `None`. -/
def threadHooks : List ReverseProxyBasePlugin → HttpParser → Option HttpParser
  | [], r => some r
  | p :: rest, r =>
    match p.after_handling_upstream_data r with
    | none => none
    | some r' => threadHooks rest r'

/-- `ReverseProxy.handle_upstream_data`: construct a fresh response parser,
feed it the raw chunk, log a completion note when the parsed message is
complete, then run the hook chain.  Returns the emitted events and the
bytes queued to the client. -/
def handle_upstream_data (env : Env) (ps : List ReverseProxyBasePlugin)
    (raw : ByteString) : List Event × ByteString :=
  let response := HttpParser.mk0.parse raw
  ((if env.is_complete response.fed
    then [Event.loggedCompletion (env.code response.fed)] else []),
   afterChain env raw ps response)

/-- Successive deliveries of upstream chunks to the handler: each call to
`handle_upstream_data` is independent — the parser is a local of the call
and no parser state lives in `self`. -/
def handleUpstreamSeq (env : Env) (ps : List ReverseProxyBasePlugin)
    (chunks : List ByteString) : List (List Event × ByteString) :=
  chunks.map (handle_upstream_data env ps)

/-- Modelled from the spec: the accumulating parser the claim describes
("the parser accumulates state across calls until the message is
structurally complete") — after a sequence of chunks its state holds all
their bytes. -/
def accumulatedParserState (chunks : List ByteString) : HttpParser :=
  ⟨chunks.flatten⟩

/-- `ReverseProxy.on_client_connection_close`: close the upstream connection
and clear the reference when one is open; otherwise do nothing. -/
def on_client_connection_close (st : ReverseProxyState) : ReverseProxyState :=
  match st.upstream with
  | some conn => if conn.closed then st else { st with upstream := none }
  | none => st

/-- The context actually emitted by `on_access_log`: the incoming context
updated at key `upstream_proxy_pass` with `str(self.choice)` or `None`. -/
def accessLogContext (env : Env) (st : ReverseProxyState) (context : Ctx) : Ctx :=
  ctxUpdate context "upstream_proxy_pass"
    (match st.choice with
     | some u => some (env.url_str u)
     | none => none)

/-- `ReverseProxy.on_access_log`: update the context with the chosen
target's string form (or `None`), emit it through the sink's format
template, and return `None`. -/
def on_access_log (env : Env) (st : ReverseProxyState) (context : Ctx) :
    List Event × Option Ctx :=
  ([Event.emittedLog (env.format_access_log (accessLogContext env st context))], none)

/-- Modelled from the spec: the access-log behavior the claim describes —
after setting the target key, "merge plugin-supplied overrides (in plugin
order, last writer wins)" through each plugin's `on_access_log` hook (the
plugin class is not under the provided source). -/
def onAccessLogClaimed (env : Env) (ps : List ReverseProxyBasePlugin)
    (st : ReverseProxyState) (context : Ctx) : Ctx :=
  ps.foldl
    (fun c p =>
      match p.on_access_log c with
      | some c2 => c2
      | none => c)
    (accessLogContext env st context)

/-! ## Concrete instances used to exercise the model -/

/-- A target with scheme http, explicit port 8080. -/
def urlA : Url := ⟨"http", some "backend-a", some 8080, "/a"⟩

/-- A request for path `/api/x`. -/
def reqApi : Request := ⟨"/api/x", ""⟩

/-- A request for a path no configured route matches. -/
def reqUnknown : Request := ⟨"/unknown", ""⟩

/-- A concrete environment: the URL codec parses a candidate string into an
http URL whose hostname is the string itself; `random_choice` picks the
head; connects succeed; serializers and the log template are simple
computable stand-ins. -/
def envT : Env :=
  { from_bytes := fun s => ⟨"http", some s, none, "/"⟩
    random_choice := fun l => l.headD ""
    connect := fun _ _ => true
    build := fun r => [r.path.length]
    build_response := fun r => r.fed
    is_complete := fun _ => false
    code := fun bs => bs.length
    url_str := fun u => u.scheme
    format_access_log := fun c => toString c.length }

/-- `envT` with a backend that refuses every connection. -/
def envRefuse : Env := { envT with connect := fun _ _ => false }

/-- A plugin that passes requests and responses through and whose only
route matches nothing. -/
def pluginPass : ReverseProxyBasePlugin :=
  { regexes := []
    routes := [.tupleEntry (fun _ => false) ["unused"]]
    before_routing := fun r => some r
    handle_route := fun _ _ => urlA
    after_handling_upstream_data := fun r => some r
    on_access_log := fun _ => none }

/-- A plugin whose `before_routing` aborts every request and whose
after-hook returns the pass-through sentinel. -/
def pluginAbort : ReverseProxyBasePlugin :=
  { pluginPass with
    before_routing := fun _ => none
    after_handling_upstream_data := fun _ => none }

/-- A plugin with a static route for `/api/x` resolving to candidate
`hostA`. -/
def pluginApi : ReverseProxyBasePlugin :=
  { pluginPass with routes := [.tupleEntry (fun s => s == "/api/x") ["hostA"]] }

/-- A second plugin with a static route for `/api/x` resolving to candidate
`hostB`. -/
def pluginApi2 : ReverseProxyBasePlugin :=
  { pluginPass with routes := [.tupleEntry (fun s => s == "/api/x") ["hostB"]] }

/-- A plugin whose `on_access_log` override adds a key to the context. -/
def pluginLogger : ReverseProxyBasePlugin :=
  { pluginPass with
    on_access_log := fun c => some (ctxUpdate c "plugin_key" (some "plugin_value")) }

/-! ## Helper lemmas about the loops -/

/-- Whether one plugin's scan raises does not depend on the prior choice. -/
theorem scanPluginRoutes_err_indep (env : Env) (req : Request)
    (p : ReverseProxyBasePlugin) (rs : List RouteEntry) (c : Option Url) :
    (scanPluginRoutes env req p c rs).1 = (scanPluginRoutes env req p none rs).1 := by
  induction rs with
  | nil => rfl
  | cons e rest ih =>
    cases e with
    | tupleEntry pat candidates =>
      by_cases h : pat req.path <;> simp [scanPluginRoutes, h, ih]
    | strEntry pat =>
      by_cases h : pat req.path <;> simp [scanPluginRoutes, h, ih]
    | invalid => rfl

/-- A plugin whose isolated scan resolves to `u` resolves to `u` from any
prior choice: a later match overwrites whatever was chosen before. -/
theorem scan_match_override (env : Env) (req : Request)
    (p : ReverseProxyBasePlugin) (rs : List RouteEntry) (u : Url)
    (h : scanPluginRoutes env req p none rs = (none, some u)) (c : Option Url) :
    scanPluginRoutes env req p c rs = (none, some u) := by
  induction rs with
  | nil => simp [scanPluginRoutes] at h
  | cons e rest ih =>
    cases e with
    | tupleEntry pat candidates =>
      by_cases hm : pat req.path
      · simpa [scanPluginRoutes, hm] using h
      · simp only [scanPluginRoutes, hm, if_neg, Bool.false_eq_true, ite_false] at h ⊢
        exact ih h
    | strEntry pat =>
      by_cases hm : pat req.path
      · simpa [scanPluginRoutes, hm] using h
      · simp only [scanPluginRoutes, hm, if_neg, Bool.false_eq_true, ite_false] at h ⊢
        exact ih h
    | invalid => simp [scanPluginRoutes] at h

/-- A plugin with no matching route (and no invalid entry) leaves the prior
choice untouched. -/
theorem scan_nomatch_keep (env : Env) (req : Request)
    (p : ReverseProxyBasePlugin) (rs : List RouteEntry)
    (h : scanPluginRoutes env req p none rs = (none, none)) (c : Option Url) :
    scanPluginRoutes env req p c rs = (none, c) := by
  induction rs with
  | nil => rfl
  | cons e rest ih =>
    cases e with
    | tupleEntry pat candidates =>
      by_cases hm : pat req.path
      · simp [scanPluginRoutes, hm] at h
      · simp only [scanPluginRoutes, hm, Bool.false_eq_true, ite_false] at h ⊢
        exact ih h
    | strEntry pat =>
      by_cases hm : pat req.path
      · simp [scanPluginRoutes, hm] at h
      · simp only [scanPluginRoutes, hm, Bool.false_eq_true, ite_false] at h ⊢
        exact ih h
    | invalid => simp [scanPluginRoutes] at h

/-- The routing loop over plugins none of which has a matching route:
every plugin is consulted and the prior choice survives. -/
theorem routeScan_nomatch (env : Env) (req : Request) :
    ∀ ps : List ReverseProxyBasePlugin,
    (∀ p ∈ ps, pluginScanResult env req p = (none, none)) → ∀ c,
    routeScan env req c ps =
      (List.replicate ps.length .routesConsulted, none, c) := by
  intro ps
  induction ps with
  | nil => intro _ c; rfl
  | cons p rest ih =>
    intro h c
    have hp : pluginScanResult env req p = (none, none) := h p (by simp)
    have hscan : scanPluginRoutes env req p c p.routes = (none, c) :=
      scan_nomatch_keep env req p p.routes hp c
    have hrest := ih (fun q hq => h q (by simp [hq])) c
    simp [routeScan, hscan, hrest, List.replicate_succ]

/-- The routing loop when the last plugin with a match is `p`: earlier
plugins raise nothing, `p` resolves to `u`, later plugins have no match —
the final choice is `p`'s resolution `u`, regardless of the prior choice. -/
theorem routeScan_lastwins (env : Env) (req : Request) (u : Url) :
    ∀ (as : List ReverseProxyBasePlugin) (p : ReverseProxyBasePlugin)
      (bs : List ReverseProxyBasePlugin),
    (∀ q ∈ as, (pluginScanResult env req q).1 = none) →
    pluginScanResult env req p = (none, some u) →
    (∀ q ∈ bs, pluginScanResult env req q = (none, none)) →
    ∀ c, (routeScan env req c (as ++ p :: bs)).2 = (none, some u) := by
  intro as
  induction as with
  | nil =>
    intro p bs _ hp hbs c
    have hscan := scan_match_override env req p p.routes u hp c
    have hrest := routeScan_nomatch env req bs hbs (some u)
    simp [routeScan, hscan, hrest]
  | cons q as ih =>
    intro p bs hq hp hbs c
    have herr : (scanPluginRoutes env req q c q.routes).1 = none := by
      rw [scanPluginRoutes_err_indep]
      exact hq q (by simp)
    rcases hscan : scanPluginRoutes env req q c q.routes with ⟨err, c'⟩
    rw [hscan] at herr
    simp only at herr
    subst herr
    have hrec := ih p bs (fun r hr => hq r (by simp [hr])) hp hbs c'
    rcases hr : routeScan env req c' (as ++ p :: bs) with ⟨evs, tail⟩
    rw [hr] at hrec
    simp only at hrec
    simp [routeScan, hscan, hr, hrec]

/-- Appending to the before-routing chain: a successful chain threads its
result into the continuation. -/
theorem beforeRoutingChain_append :
    ∀ (as cs : List ReverseProxyBasePlugin) (req req' : Request),
    beforeRoutingChain as req = .ok req' →
    beforeRoutingChain (as ++ cs) req = beforeRoutingChain cs req' := by
  intro as
  induction as with
  | nil =>
    intro cs req req' h
    simp only [beforeRoutingChain] at h
    cases h
    rfl
  | cons p rest ih =>
    intro cs req req' h
    simp only [beforeRoutingChain] at h ⊢
    cases hb : p.before_routing req with
    | none => rw [hb] at h; exact absurd h (by simp)
    | some r =>
      rw [hb] at h
      simp only [List.cons_append]
      exact ih cs r req' h

/-- Appending to the after-hook chain: successful threading through a
first segment continues with its result. -/
theorem afterChain_append (env : Env) (raw : ByteString) :
    ∀ (as cs : List ReverseProxyBasePlugin) (r₀ r : HttpParser),
    threadHooks as r₀ = some r →
    afterChain env raw (as ++ cs) r₀ = afterChain env raw cs r := by
  intro as
  induction as with
  | nil =>
    intro cs r₀ r h
    simp only [threadHooks] at h
    cases h
    rfl
  | cons p rest ih =>
    intro cs r₀ r h
    simp only [threadHooks] at h
    cases hb : p.after_handling_upstream_data r₀ with
    | none => rw [hb] at h; exact absurd h (by simp)
    | some r' =>
      rw [hb] at h
      simp only [List.cons_append, afterChain, hb]
      exact ih cs r' r h

/-- Appending to the threading function itself. -/
theorem threadHooks_append :
    ∀ (as cs : List ReverseProxyBasePlugin) (r₀ r : HttpParser),
    threadHooks as r₀ = some r →
    threadHooks (as ++ cs) r₀ = threadHooks cs r := by
  intro as
  induction as with
  | nil =>
    intro cs r₀ r h
    simp only [threadHooks] at h
    cases h
    rfl
  | cons p rest ih =>
    intro cs r₀ r h
    simp only [threadHooks] at h
    cases hb : p.after_handling_upstream_data r₀ with
    | none => rw [hb] at h; exact absurd h (by simp)
    | some r' =>
      rw [hb] at h
      simp only [List.cons_append, threadHooks, hb]
      exact ih cs r' r h

/-- When every hook returns a replacement, the chain builds the final
threaded response. -/
theorem afterChain_of_threadHooks (env : Env) (raw : ByteString) :
    ∀ (ps : List ReverseProxyBasePlugin) (r₀ rf : HttpParser),
    threadHooks ps r₀ = some rf →
    afterChain env raw ps r₀ = env.build_response rf := by
  intro ps
  induction ps with
  | nil =>
    intro r₀ rf h
    simp only [threadHooks] at h
    cases h
    rfl
  | cons p rest ih =>
    intro r₀ rf h
    simp only [threadHooks] at h
    cases hb : p.after_handling_upstream_data r₀ with
    | none => rw [hb] at h; exact absurd h (by simp)
    | some r' =>
      rw [hb] at h
      simp only [afterChain, hb]
      exact ih r' rf h

/-- `ctxUpdate` stores the value at the updated key. -/
theorem ctxLookup_ctxUpdate_self :
    ∀ (ctx : Ctx) (k : String) (v : Option String),
    ctxLookup (ctxUpdate ctx k v) k = some v := by
  intro ctx k v
  induction ctx with
  | nil => simp [ctxUpdate, ctxLookup]
  | cons kv rest ih =>
    by_cases h : kv.1 = k
    · simp [ctxUpdate, ctxLookup, h]
    · simp [ctxUpdate, ctxLookup, h, ih]

/-- `ctxUpdate` leaves every other key's binding unchanged. -/
theorem ctxLookup_ctxUpdate_other :
    ∀ (ctx : Ctx) (k : String) (v : Option String) (k' : String), k' ≠ k →
    ctxLookup (ctxUpdate ctx k v) k' = ctxLookup ctx k' := by
  intro ctx k v
  induction ctx with
  | nil =>
    intro k' hne
    have hk : ¬(k = k') := fun hk => hne hk.symm
    simp [ctxUpdate, ctxLookup, hk]
  | cons kv rest ih =>
    intro k' hne
    by_cases h : kv.1 = k
    · have hk : ¬(k = k') := fun hk => hne hk.symm
      have hk2 : ¬(kv.1 = k') := by rw [h]; exact hk
      simp [ctxUpdate, ctxLookup, h, hk, hk2]
    · by_cases h2 : kv.1 = k'
      · simp [ctxUpdate, ctxLookup, h, h2, hne]
      · simp [ctxUpdate, ctxLookup, h, h2, ih k' hne]

/-- The after-hook chain only consults the environment's response
serializer: environments agreeing on `build_response` run it identically. -/
theorem afterChain_congr (env env' : Env)
    (h : env.build_response = env'.build_response) (raw : ByteString) :
    ∀ (ps : List ReverseProxyBasePlugin) (r : HttpParser),
    afterChain env raw ps r = afterChain env' raw ps r := by
  intro ps
  induction ps with
  | nil => intro r; simp [afterChain, h]
  | cons p rest ih =>
    intro r
    cases hb : p.after_handling_upstream_data r with
    | none => simp [afterChain, hb]
    | some r' => simp [afterChain, hb, ih]

/-! ## The claims -/

/-- C5: in `handle_request`'s before-routing chain, a hook returning the
abort sentinel (`None`) raises
`HttpProtocolException('before_routing closed connection')` and no
`before_routing` hook of any later plugin runs (the outcome is unchanged by
any replacement of the later plugins); otherwise the hook's returned
request replaces the current request and is threaded to the next hook in
plugin-list order. -/
theorem beforeRoutingChain_abort_or_thread
    (as : List ReverseProxyBasePlugin) (p : ReverseProxyBasePlugin)
    (bs bs' : List ReverseProxyBasePlugin) (req req' : Request)
    (hok : beforeRoutingChain as req = .ok req') :
    (p.before_routing req' = none →
      beforeRoutingChain (as ++ p :: bs) req =
        .error (.httpProtocolException "before_routing closed connection") ∧
      beforeRoutingChain (as ++ p :: bs) req =
        beforeRoutingChain (as ++ p :: bs') req) ∧
    (∀ r, p.before_routing req' = some r →
      beforeRoutingChain (as ++ p :: bs) req = beforeRoutingChain bs r) := by
  constructor
  · intro hnone
    have h1 := beforeRoutingChain_append as (p :: bs) req req' hok
    have h2 := beforeRoutingChain_append as (p :: bs') req req' hok
    rw [h1, h2]
    simp [beforeRoutingChain, hnone]
  · intro r hr
    rw [beforeRoutingChain_append as (p :: bs) req req' hok]
    simp [beforeRoutingChain, hr]

/-- C5 witness: with a pass-through plugin followed by an aborting one, the
chain raises the protocol error. -/
theorem beforeRoutingChain_abort_or_thread_witness :
    beforeRoutingChain [pluginPass] reqApi = .ok reqApi ∧
    pluginAbort.before_routing reqApi = none ∧
    beforeRoutingChain [pluginPass, pluginAbort, pluginPass] reqApi =
      .error (.httpProtocolException "before_routing closed connection") :=
  ⟨rfl, rfl,
    ((beforeRoutingChain_abort_or_thread [pluginPass] pluginAbort [pluginPass] []
      reqApi reqApi rfl).1 rfl).1⟩

/-- C10: if a `before_routing` hook aborts, `handle_request` raises before
any route matching or connection work: the returned state equals the
incoming state (in particular `self.choice` keeps its value), the event
trace is empty, so no plugin's `routes()` was consulted and no upstream
connection was initialized or attempted. -/
theorem handle_request_abort_atomic (env : Env)
    (as : List ReverseProxyBasePlugin) (p : ReverseProxyBasePlugin)
    (bs : List ReverseProxyBasePlugin) (st : ReverseProxyState)
    (req req' : Request)
    (hok : beforeRoutingChain as req = .ok req')
    (habort : p.before_routing req' = none) :
    (handle_request env (as ++ p :: bs) st req).err =
      some (.httpProtocolException "before_routing closed connection") ∧
    (handle_request env (as ++ p :: bs) st req).state = st ∧
    (handle_request env (as ++ p :: bs) st req).state.choice = st.choice ∧
    (handle_request env (as ++ p :: bs) st req).events = [] := by
  have hchain : beforeRoutingChain (as ++ p :: bs) req =
      .error (.httpProtocolException "before_routing closed connection") := by
    rw [beforeRoutingChain_append as (p :: bs) req req' hok]
    simp [beforeRoutingChain, habort]
  have hout : handle_request env (as ++ p :: bs) st req =
      ⟨st, [], some (.httpProtocolException "before_routing closed connection")⟩ := by
    simp [handle_request, hchain]
  rw [hout]
  exact ⟨rfl, rfl, rfl, rfl⟩

/-- C10 witness: an aborting plugin leaves a previously chosen target and
the absent upstream untouched. -/
theorem handle_request_abort_atomic_witness :
    beforeRoutingChain [] reqApi = .ok reqApi ∧
    pluginAbort.before_routing reqApi = none ∧
    (handle_request envT [pluginAbort] ⟨some urlA, none⟩ reqApi).state =
      ⟨some urlA, none⟩ ∧
    (handle_request envT [pluginAbort] ⟨some urlA, none⟩ reqApi).events = [] :=
  ⟨rfl, rfl,
    (handle_request_abort_atomic envT [] pluginAbort [] ⟨some urlA, none⟩
      reqApi reqApi rfl rfl).2.1,
    (handle_request_abort_atomic envT [] pluginAbort [] ⟨some urlA, none⟩
      reqApi reqApi rfl rfl).2.2.2⟩

/-- C9: `on_client_connection_close` is idempotent: running it twice equals
running it once; with an absent or already-closed upstream it is a no-op
(and, being a total function, it never raises); when the upstream is open,
the first run clears the reference. -/
theorem on_client_connection_close_idempotent (st : ReverseProxyState) :
    on_client_connection_close (on_client_connection_close st) =
      on_client_connection_close st ∧
    (st.upstream = none → on_client_connection_close st = st) ∧
    (∀ c, st.upstream = some c → c.closed = true →
      on_client_connection_close st = st) ∧
    (∀ c, st.upstream = some c → c.closed = false →
      (on_client_connection_close st).upstream = none) := by
  refine ⟨?_, ?_, ?_, ?_⟩
  · rcases st with ⟨ch, _ | ⟨h, p, cl⟩⟩
    · rfl
    · cases cl <;> simp [on_client_connection_close]
  · intro h
    simp [on_client_connection_close, h]
  · intro c h hcl
    simp [on_client_connection_close, h, hcl]
  · intro c h hcl
    simp [on_client_connection_close, h, hcl]

/-- C9 witness: closing an open upstream clears the reference, and closing
with the reference absent is a no-op. -/
theorem on_client_connection_close_idempotent_witness :
    (⟨some urlA, none⟩ : ReverseProxyState).upstream = none ∧
    on_client_connection_close ⟨some urlA, none⟩ = ⟨some urlA, none⟩ ∧
    (⟨none, some ⟨"backend-a", 8080, false⟩⟩ : ReverseProxyState).upstream =
      some ⟨"backend-a", 8080, false⟩ ∧
    (⟨"backend-a", 8080, false⟩ : UpstreamConn).closed = false ∧
    (on_client_connection_close ⟨none, some ⟨"backend-a", 8080, false⟩⟩).upstream = none :=
  ⟨rfl,
   (on_client_connection_close_idempotent ⟨some urlA, none⟩).2.1 rfl,
   rfl, rfl,
   (on_client_connection_close_idempotent
     ⟨none, some ⟨"backend-a", 8080, false⟩⟩).2.2.2 ⟨"backend-a", 8080, false⟩ rfl rfl⟩

/-- C2: code bug — for a secure-scheme target with an explicit port,
`handle_request`'s port computation yields `DEFAULT_HTTPS_PORT` (443) and
ignores the explicit port 8443, because Python's operator precedence groups
the expression as `(port or 80) if scheme == b'http' else 443`; the spec's
resolution rule (`resolvePortSpec`) prescribes the explicit port. -/
theorem resolvePort_secure_explicit_port_ignored :
    resolvePort ⟨"https", some "backend-a", some 8443, "/"⟩ = 443 ∧
    resolvePortSpec ⟨"https", some "backend-a", some 8443, "/"⟩ = 8443 ∧
    resolvePort ⟨"https", some "backend-a", some 8443, "/"⟩ ≠
      resolvePortSpec ⟨"https", some "backend-a", some 8443, "/"⟩ := by
  refine ⟨by decide, rfl, by decide⟩

/-- C1: after `handle_request`'s route-matching loop, the chosen target
(`self.choice`) equals the resolution of the match from the last plugin in
plugin-list order that has any matching route: the outer scan over plugins
does not stop at the first plugin with a match, and a later plugin's match
overwrites the earlier choice. -/
theorem routeScan_last_matching_plugin_wins (env : Env)
    (as : List ReverseProxyBasePlugin) (p : ReverseProxyBasePlugin)
    (bs : List ReverseProxyBasePlugin) (st : ReverseProxyState)
    (req req' : Request) (u : Url)
    (hok : beforeRoutingChain (as ++ p :: bs) req = .ok req')
    (has : ∀ q ∈ as, (pluginScanResult env req' q).1 = none)
    (hp : pluginScanResult env req' p = (none, some u))
    (hbs : ∀ q ∈ bs, pluginScanResult env req' q = (none, none)) :
    (routeScan env req' st.choice (as ++ p :: bs)).2 = (none, some u) ∧
    (handle_request env (as ++ p :: bs) st req).state.choice = some u := by
  have hscan := routeScan_lastwins env req' u as p bs has hp hbs st.choice
  refine ⟨hscan, ?_⟩
  rcases hr : routeScan env req' st.choice (as ++ p :: bs) with ⟨evs, tail⟩
  rw [hr] at hscan
  have htail : tail = (none, some u) := hscan
  subst htail
  simp only [handle_request, hok, hr]
  cases hh : u.hostname with
  | none => simp [hh]
  | some host =>
    by_cases hhe : host = ""
    · simp [hh, hhe]
    · simp [hh, hhe, connectPhase]
      by_cases hc : env.connect host (resolvePort u) <;> simp [hc]

/-- C1 witness: two plugins both matching `/api/x`; the second (last)
plugin's resolution `hostB` wins. -/
theorem routeScan_last_matching_plugin_wins_witness :
    beforeRoutingChain [pluginApi, pluginApi2] reqApi = .ok reqApi ∧
    (pluginScanResult envT reqApi pluginApi).1 = none ∧
    pluginScanResult envT reqApi pluginApi2 =
      (none, some ⟨"http", some "hostB", none, "/"⟩) ∧
    (routeScan envT reqApi none [pluginApi, pluginApi2]).2 =
      (none, some ⟨"http", some "hostB", none, "/"⟩) ∧
    (handle_request envT [pluginApi, pluginApi2] ⟨none, none⟩ reqApi).state.choice =
      some ⟨"http", some "hostB", none, "/"⟩ := by
  have h := routeScan_last_matching_plugin_wins envT [pluginApi] pluginApi2 []
    ⟨none, none⟩ reqApi reqApi ⟨"http", some "hostB", none, "/"⟩ rfl
    (by intro q hq; rw [List.mem_singleton] at hq; subst hq; rfl)
    rfl
    (by intro q hq; exact absurd hq (List.not_mem_nil q))
  exact ⟨rfl, rfl, rfl, h.1, h.2⟩

/-- C3: the pass-through law of `handle_upstream_data`: if some plugin's
`after_handling_upstream_data` hook returns the sentinel (`None`), the
bytes queued to the client are exactly the original raw chunk — not the
parsed/rebuilt form — no later plugin's hook affects the outcome, and
earlier hooks' transformations are discarded; if no hook returns the
sentinel, the queued bytes are the serialization of the response produced
by the last hook. -/
theorem handle_upstream_data_pass_through (env : Env) (raw : ByteString)
    (as : List ReverseProxyBasePlugin) (p : ReverseProxyBasePlugin)
    (bs bs' : List ReverseProxyBasePlugin) (r : HttpParser)
    (hthread : threadHooks as (HttpParser.mk0.parse raw) = some r) :
    (p.after_handling_upstream_data r = none →
      (handle_upstream_data env (as ++ p :: bs) raw).2 = raw ∧
      (handle_upstream_data env (as ++ p :: bs) raw).2 =
        (handle_upstream_data env (as ++ p :: bs') raw).2) ∧
    (∀ rf, threadHooks (as ++ p :: bs) (HttpParser.mk0.parse raw) = some rf →
      (handle_upstream_data env (as ++ p :: bs) raw).2 = env.build_response rf) := by
  constructor
  · intro hnone
    have h1 : afterChain env raw (as ++ p :: bs) (HttpParser.mk0.parse raw) = raw := by
      rw [afterChain_append env raw as (p :: bs) _ r hthread]
      simp [afterChain, hnone]
    have h2 : afterChain env raw (as ++ p :: bs') (HttpParser.mk0.parse raw) = raw := by
      rw [afterChain_append env raw as (p :: bs') _ r hthread]
      simp [afterChain, hnone]
    constructor
    · simpa [handle_upstream_data] using h1
    · simp only [handle_upstream_data]
      rw [h1, h2]
  · intro rf hrf
    have h3 := afterChain_of_threadHooks env raw (as ++ p :: bs) _ rf hrf
    simpa [handle_upstream_data] using h3

/-- C3 witness: a pass-through plugin, then one returning the sentinel —
the original raw chunk `[7, 8]` is queued unchanged. -/
theorem handle_upstream_data_pass_through_witness :
    threadHooks [pluginPass] (HttpParser.mk0.parse [7, 8]) = some ⟨[7, 8]⟩ ∧
    pluginAbort.after_handling_upstream_data ⟨[7, 8]⟩ = none ∧
    (handle_upstream_data envT [pluginPass, pluginAbort, pluginPass] [7, 8]).2 =
      [7, 8] :=
  ⟨rfl, rfl,
    ((handle_upstream_data_pass_through envT [7, 8] [pluginPass] pluginAbort
      [pluginPass] [] ⟨[7, 8]⟩ rfl).1 rfl).1⟩

/-- C8: when the upstream connect is refused, `handle_request` raises the
protocol-level `HttpProtocolException` whose payload names the target
hostname and the port that was used; the failure is surfaced, not
swallowed. -/
theorem handle_request_connection_refused (env : Env)
    (ps : List ReverseProxyBasePlugin) (st : ReverseProxyState)
    (req req' : Request) (url : Url) (host : String) (evs : List Event)
    (hok : beforeRoutingChain ps req = .ok req')
    (hscan : routeScan env req' st.choice ps = (evs, none, some url))
    (hhost : url.hostname = some host) (hne : host ≠ "")
    (href : env.connect host (resolvePort url) = false) :
    (handle_request env ps st req).err =
      some (.httpProtocolException
        ("Connection refused by upstream server " ++ host ++ ":" ++
          toString (resolvePort url))) ∧
    (handle_request env ps st req).err ≠ none := by
  have hout : (handle_request env ps st req).err =
      some (.httpProtocolException
        ("Connection refused by upstream server " ++ host ++ ":" ++
          toString (resolvePort url))) := by
    simp only [handle_request, hok, hscan, hhost]
    simp only [hne, ite_false]
    simp [connectPhase, href]
  exact ⟨hout, by rw [hout]; exact fun h => by cases h⟩

/-- C8 witness: with a refusing backend, routing `/api/x` to `hostA` on the
default http port 80 raises the refusal error naming `hostA:80`. -/
theorem handle_request_connection_refused_witness :
    beforeRoutingChain [pluginApi] reqApi = .ok reqApi ∧
    routeScan envRefuse reqApi none [pluginApi] =
      ([.routesConsulted], none, some ⟨"http", some "hostA", none, "/"⟩) ∧
    (⟨"http", some "hostA", none, "/"⟩ : Url).hostname = some "hostA" ∧
    envRefuse.connect "hostA" (resolvePort ⟨"http", some "hostA", none, "/"⟩) = false ∧
    (handle_request envRefuse [pluginApi] ⟨none, none⟩ reqApi).err =
      some (.httpProtocolException "Connection refused by upstream server hostA:80") := by
  refine ⟨rfl, rfl, rfl, rfl, ?_⟩
  have h := (handle_request_connection_refused envRefuse [pluginApi] ⟨none, none⟩
    reqApi reqApi ⟨"http", some "hostA", none, "/"⟩ "hostA" [.routesConsulted]
    rfl rfl rfl (by decide) rfl).1
  simpa using h

/-- C4 counterexample: on a reused client connection whose earlier request
already resolved a target, a request matching no route of any plugin does
NOT fail — the stale `self.choice` passes the assertion and an upstream
connection to the stale target is initialized and attempted, contrary to
the claim's "this holds for every such request". -/
theorem handle_request_stale_choice_counterexample :
    pluginScanResult envT reqUnknown pluginApi = (none, none) ∧
    (handle_request envT [pluginApi] ⟨some urlA, none⟩ reqUnknown).err = none ∧
    (handle_request envT [pluginApi] ⟨some urlA, none⟩ reqUnknown).state.upstream =
      some ⟨"backend-a", 8080, false⟩ ∧
    Event.connectAttempted "backend-a" 8080 ∈
      (handle_request envT [pluginApi] ⟨some urlA, none⟩ reqUnknown).events := by
  refine ⟨rfl, rfl, rfl, ?_⟩
  decide

/-- C4 (amended): for a request matching no route entry of any plugin,
when no target was previously chosen on the connection (`self.choice` is
`None`, as on a fresh connection), `handle_request` fails with the
assertion error (the behavior the spec names `NoRouteMatched`) and no
upstream connection is attempted or created; on a reused connection with a
previously resolved target the assertion instead passes on the stale
choice. -/
theorem handle_request_no_match_fresh_fails (env : Env)
    (ps : List ReverseProxyBasePlugin) (st : ReverseProxyState)
    (req req' : Request)
    (hok : beforeRoutingChain ps req = .ok req')
    (hnone : ∀ p ∈ ps, pluginScanResult env req' p = (none, none))
    (hfresh : st.choice = none) :
    (handle_request env ps st req).err = some .assertionError ∧
    (handle_request env ps st req).state.upstream = st.upstream ∧
    ∀ h pt, Event.upstreamInitialized h pt ∉ (handle_request env ps st req).events ∧
            Event.connectAttempted h pt ∉ (handle_request env ps st req).events := by
  have hscan := routeScan_nomatch env req' ps hnone st.choice
  rw [hfresh] at hscan
  have hout : handle_request env ps st req =
      ⟨⟨none, st.upstream⟩, List.replicate ps.length .routesConsulted,
        some .assertionError⟩ := by
    simp only [handle_request, hok, hfresh, hscan]
  rw [hout]
  refine ⟨rfl, rfl, ?_⟩
  intro h pt
  constructor
  · intro hmem
    simp [List.mem_replicate] at hmem
  · intro hmem
    simp [List.mem_replicate] at hmem

/-- C4 witness: a fresh connection (no prior choice) with a non-matching
request fails the assertion. -/
theorem handle_request_no_match_fresh_fails_witness :
    beforeRoutingChain [pluginApi] reqUnknown = .ok reqUnknown ∧
    pluginScanResult envT reqUnknown pluginApi = (none, none) ∧
    (handle_request envT [pluginApi] ⟨none, none⟩ reqUnknown).err =
      some .assertionError ∧
    (handle_request envT [pluginApi] ⟨none, none⟩ reqUnknown).state.upstream = none := by
  have h := handle_request_no_match_fresh_fails envT [pluginApi] ⟨none, none⟩
    reqUnknown reqUnknown rfl
    (by intro q hq; rw [List.mem_singleton] at hq; subst hq; rfl)
    rfl
  exact ⟨rfl, rfl, h.1, h.2.1⟩

/-- C6 counterexample: `handle_upstream_data` parses every chunk with a
freshly constructed parser, so with the two chunks `[72, 84]` and `[66, 79]`
of one response, the parser state the hook chain sees on the second call
holds only `[66, 79]` (revealed here by a serializer returning the fed
bytes), not the accumulated `[72, 84, 66, 79]` the claim requires. -/
theorem handle_upstream_data_fresh_parser_counterexample :
    handleUpstreamSeq envT [] [[72, 84], [66, 79]] =
      [([], [72, 84]), ([], [66, 79])] ∧
    (handle_upstream_data envT [] [66, 79]).2 = [66, 79] ∧
    (accumulatedParserState [[72, 84], [66, 79]]).fed = [72, 84, 66, 79] ∧
    (handle_upstream_data envT [] [66, 79]).2 ≠
      (accumulatedParserState [[72, 84], [66, 79]]).fed := by
  refine ⟨rfl, rfl, rfl, by decide⟩

/-- C6 (amended): `handle_upstream_data` keeps no parser state across
calls — each chunk is parsed by a fresh parser, so processing a chunk is
independent of all earlier chunks of the same response; completion of the
freshly parsed chunk only adds a log event recording the status code, and
the bytes queued to the client do not depend on the completion test or the
status code at all. -/
theorem handle_upstream_data_stateless (env : Env)
    (ps : List ReverseProxyBasePlugin) (pre : List ByteString)
    (raw : ByteString) (f : ByteString → Bool) (g : ByteString → Nat) :
    (handleUpstreamSeq env ps (pre ++ [raw])).getLast? =
      some (handle_upstream_data env ps raw) ∧
    (handle_upstream_data env ps raw).1 =
      (if env.is_complete raw then [Event.loggedCompletion (env.code raw)] else []) ∧
    (handle_upstream_data { env with is_complete := f, code := g } ps raw).2 =
      (handle_upstream_data env ps raw).2 := by
  refine ⟨?_, rfl, ?_⟩
  · simp [handleUpstreamSeq]
  · simp only [handle_upstream_data]
    exact afterChain_congr { env with is_complete := f, code := g } env rfl raw ps _

/-- C7 counterexample: `on_access_log` never consults the plugins — a
plugin override adding `plugin_key` is absent from the context the code
emits, while the claimed merge (`onAccessLogClaimed`) contains it. -/
theorem on_access_log_no_plugin_merge_counterexample :
    ctxLookup (accessLogContext envT ⟨none, none⟩ []) "plugin_key" = none ∧
    ctxLookup (onAccessLogClaimed envT [pluginLogger] ⟨none, none⟩ []) "plugin_key" =
      some (some "plugin_value") ∧
    accessLogContext envT ⟨none, none⟩ [] ≠
      onAccessLogClaimed envT [pluginLogger] ⟨none, none⟩ [] := by
  refine ⟨rfl, rfl, by decide⟩

/-- C7 (amended): the access-log step builds a context carrying the
resolved target's string form under `upstream_proxy_pass` (an explicit
`None` when no target was chosen), changes no other key, emits it through
the logging sink's format template and returns `None`; plugin
`on_access_log` overrides are not merged. -/
theorem on_access_log_only_target_key (env : Env) (st : ReverseProxyState)
    (context : Ctx) :
    ctxLookup (accessLogContext env st context) "upstream_proxy_pass" =
      some (match st.choice with
            | some u => some (env.url_str u)
            | none => none) ∧
    (∀ k, k ≠ "upstream_proxy_pass" →
      ctxLookup (accessLogContext env st context) k = ctxLookup context k) ∧
    on_access_log env st context =
      ([Event.emittedLog (env.format_access_log (accessLogContext env st context))],
        none) := by
  refine ⟨ctxLookup_ctxUpdate_self context _ _, ?_, rfl⟩
  intro k hk
  exact ctxLookup_ctxUpdate_other context "upstream_proxy_pass" _ k hk

/-- C7 witness: a pre-existing key survives the update, and the target key
holds the chosen target's string form. -/
theorem on_access_log_only_target_key_witness :
    ("other" : String) ≠ "upstream_proxy_pass" ∧
    ctxLookup (accessLogContext envT ⟨some urlA, none⟩ [("other", some "v")]) "other" =
      ctxLookup [("other", some "v")] "other" :=
  ⟨by decide,
   (on_access_log_only_target_key envT ⟨some urlA, none⟩
     [("other", some "v")]).2.1 "other" (by decide)⟩

end ReverseProxyModel
